import Mathlib

/-!
Verification of the PhantomEngaged_Lander layout/assembly/merge kernel.

The Python sources are shallowly embedded:
* real-valued page coordinates and sizes become exact `ℚ` arithmetic;
* the external text-wrapping primitive `Paragraph.wrap(width, maxHeight)`
  (an assumed collaborator, out of scope per the spec) is a function field
  `wrapH : ℚ → ℚ` of `Para` giving the wrapped height at each width
  (the `maxHeight` argument, always 10000 in the source, is ignored there);
* canvas painting becomes a trace of paint commands;
* PDF page handles become opaque `ℕ` identifiers;
* the file system seen by `insert_callouts.py` becomes an explicit record.
-/

/-- A text block: the external wrap primitive returns its height at a width.
Embeds the `Paragraph` objects built in `CalloutBox.__init__`
(`generate_phantom_engaged.py` lines 144-149, `insert_callouts.py` 87-92). -/
structure Para where
  wrapH : ℚ → ℚ

/-- The measure-pass accumulation `total_h = 0; for p: total_h += ph + 4`
of `CalloutBox.__init__` (`generate_phantom_engaged.py` lines 152-155). -/
def measureTotal (innerW : ℚ) : List Para → ℚ
  | [] => 0
  | p :: ps => (p.wrapH innerW + 4) + measureTotal innerW ps

/-- The fields `CalloutBox.__init__` stores (colors omitted: the spec treats
paint styles as external data).  Note the stored data: `inner_w`, the derived
`box_h` and `height` — the individual wrapped block heights are NOT stored. -/
structure CalloutBox where
  padding : ℚ
  bar_w : ℚ
  avail_width : ℚ
  paras : List Para
  inner_w : ℚ
  box_h : ℚ
  width : ℚ
  height : ℚ

/-- `CalloutBox.__init__(paragraphs, avail_width, padding)`
(`generate_phantom_engaged.py` lines 134-158, identical in
`insert_callouts.py` lines 80-101; the source default is `padding=14`):
`inner_w = avail_width - bar_w - padding*2`, the measure pass wraps every
block at `inner_w`, `box_h = total_h + padding*2 - 4`,
`width = avail_width`, `height = box_h + 8`. -/
def CalloutBox.make (paras : List Para) (avail_width : ℚ) (padding : ℚ) : CalloutBox :=
  let bar_w : ℚ := 4
  let inner_w := avail_width - bar_w - padding * 2
  let total_h := measureTotal inner_w paras
  let box_h := total_h + padding * 2 - 4
  { padding := padding
    bar_w := bar_w
    avail_width := avail_width
    paras := paras
    inner_w := inner_w
    box_h := box_h
    width := avail_width
    height := box_h + 8 }

/-- One canvas operation emitted by `CalloutBox.draw`.  A `wrapAt w` command
records a call of the external wrap primitive made during the draw pass. -/
inductive PaintCmd where
  | roundRect (x y w h : ℚ)
  | rect (x y w h : ℚ)
  | wrapAt (w : ℚ)
  | paraAt (x y : ℚ)
deriving DecidableEq

/-- The paragraph loop of `CalloutBox.draw`
(`generate_phantom_engaged.py` lines 169-172): for each block it calls
`para.wrap(self.inner_w, 10000)` again, draws the block at `(x, y - ph)` and
moves the cursor down by `ph + 4`.  Returns the command trace and final `y`. -/
def drawParas (innerW x : ℚ) : List Para → ℚ → List PaintCmd × ℚ
  | [], y => ([], y)
  | p :: ps, y =>
      let ph := p.wrapH innerW
      let rest := drawParas innerW x ps (y - (ph + 4))
      (PaintCmd.wrapAt innerW :: PaintCmd.paraAt x (y - ph) :: rest.1, rest.2)

/-- `CalloutBox.draw` (`generate_phantom_engaged.py` lines 160-172,
identical in `insert_callouts.py` lines 103-115): paints the background
`roundRect` and border `rect` at `y_base = 4` with height `box_h`, then runs
the paragraph loop from `y = y_base + box_h - padding`. -/
def CalloutBox.draw (b : CalloutBox) : List PaintCmd × ℚ :=
  let y_base : ℚ := 4
  let body := drawParas b.inner_w (b.bar_w + b.padding) b.paras (y_base + b.box_h - b.padding)
  (PaintCmd.roundRect 0 y_base b.avail_width b.box_h ::
     PaintCmd.rect 0 y_base b.bar_w b.box_h :: body.1, body.2)

/-- Widths at which the draw pass re-invokes the external wrap primitive. -/
def CalloutBox.drawWrapWidths (b : CalloutBox) : List ℚ :=
  b.draw.1.filterMap fun cmd =>
    match cmd with
    | PaintCmd.wrapAt w => some w
    | _ => none

/-- Cursor position after the last block of the draw pass. -/
def CalloutBox.drawFinalY (b : CalloutBox) : ℚ := b.draw.2

lemma measureTotal_eq_sum (innerW : ℚ) :
    ∀ ps : List Para, measureTotal innerW ps = (ps.map fun p => p.wrapH innerW + 4).sum := by
  intro ps
  induction ps with
  | nil => simp [measureTotal]
  | cons p ps ih => simp [measureTotal, ih]

lemma drawParas_wrapWidths (innerW x : ℚ) :
    ∀ (ps : List Para) (y : ℚ),
      ((drawParas innerW x ps y).1.filterMap fun cmd =>
        match cmd with
        | PaintCmd.wrapAt w => some w
        | _ => none) = List.replicate ps.length innerW := by
  intro ps
  induction ps with
  | nil => intro y; simp [drawParas]
  | cons p ps ih => intro y; simp [drawParas, ih, List.replicate]

lemma drawParas_finalY (innerW x : ℚ) :
    ∀ (ps : List Para) (y : ℚ),
      (drawParas innerW x ps y).2 = y - measureTotal innerW ps := by
  intro ps
  induction ps with
  | nil => intro y; simp [drawParas, measureTotal]
  | cons p ps ih => intro y; simp [drawParas, measureTotal, ih]; ring

/-- Concrete example: one block whose wrapped height is 20 at every width. -/
def exPara20 : Para := ⟨fun _ => 20⟩

/-- Concrete example box: one block, available width 100, padding 14
(the source default), hence `inner_w = 68`, `box_h = 48`, `height = 56`. -/
def exBox : CalloutBox := CalloutBox.make [exPara20] 100 14

/-- Claim C1 is false as stated: the draw pass does NOT consume only stored
sizes — `CalloutBox.draw` calls the wrap primitive again for every block
(`para.wrap(self.inner_w, 10000)`, `generate_phantom_engaged.py` line 170,
`insert_callouts.py` line 113).  For the concrete box `exBox` the draw trace
contains a re-wrap call (at the stored inner width 68). -/
theorem claim1_counterexample :
    exBox.drawWrapWidths = [(68 : ℚ)] ∧ exBox.drawWrapWidths ≠ [] := by
  have h : exBox.drawWrapWidths = [(68 : ℚ)] := by
    simp [exBox, CalloutBox.make, CalloutBox.drawWrapWidths, CalloutBox.draw,
      drawParas, exPara20]
    norm_num
  exact ⟨h, by rw [h]; simp⟩

/-- Claim C1 amended: construction performs the measure pass once and stores
`inner_w` and the derived heights, but `draw` re-wraps every block — one wrap
call per block, each at exactly the stored `inner_w`.  Because the wrap
primitive is a deterministic function, the re-wrapped heights equal the
measured ones, so the measure and draw passes still agree: the cursor of the
draw loop ends exactly `padding` above the flowable origin (content fills the
measured box with `padding` left at the bottom, since the box bottom edge
sits at `y = 4` and the last gap is 4), and the height reported at
construction is `box_h + 8`, the full vertical extent the drawing occupies. -/
theorem claim1_amended :
    ∀ (paras : List Para) (w pad : ℚ),
      (CalloutBox.make paras w pad).drawWrapWidths
          = List.replicate paras.length (w - 4 - pad * 2)
      ∧ (CalloutBox.make paras w pad).drawFinalY = pad
      ∧ (CalloutBox.make paras w pad).height = (CalloutBox.make paras w pad).box_h + 8 := by
  intro paras w pad
  refine ⟨?_, ?_, ?_⟩
  · simp [CalloutBox.drawWrapWidths, CalloutBox.draw, CalloutBox.make,
      drawParas_wrapWidths]
  · simp [CalloutBox.drawFinalY, CalloutBox.draw, CalloutBox.make,
      drawParas_finalY]
    ring
  · simp [CalloutBox.make]

/-- Claim C2 is false as stated: for `exBox` (one block of wrapped height 20,
padding 14) the spec formula gives
`Σ(wrapped + gap) + 2×padding − gap_last = 24 + 28 − 4 = 48`, but the height
stored at construction is `self.height = box_h + 8 = 56`
(`generate_phantom_engaged.py` lines 156-158). -/
theorem claim2_counterexample :
    exBox.height ≠ (20 + 4) + 2 * 14 - 4 := by
  have h : exBox.height = 56 := by
    simp [exBox, CalloutBox.make, measureTotal, exPara20]
    norm_num
  rw [h]
  norm_num

/-- Claim C2 amended: `inner_width = w − border_bar_width − 2×padding` as
claimed, but the height stored at construction exceeds the claimed formula by
exactly 8: `height = Σ(wrapped_height + 4) + 2×padding − 4 + 8`, because the
flowable reserves a 4-unit margin below (`y_base = 4`) and above the tinted
box.  This stored height is the vertical extent `draw` occupies (see the
measure/draw agreement in the amended C1 theorem). -/
theorem claim2_amended :
    ∀ (paras : List Para) (w pad : ℚ),
      (CalloutBox.make paras w pad).inner_w = w - 4 - pad * 2
      ∧ (CalloutBox.make paras w pad).height
          = ((paras.map fun p => p.wrapH (w - 4 - pad * 2) + 4).sum + pad * 2 - 4) + 8 := by
  intro paras w pad
  constructor
  · simp [CalloutBox.make]
  · simp [CalloutBox.make, measureTotal_eq_sum]

/-!
The merge tool `insert_callouts.py`.  PDF pages become opaque `ℕ` handles;
copying a page into the writer preserves the handle (pypdf `add_page` never
edits the source page).  The file system is a record saying whether the
script-relative source `mnt/PhantomEngaged_Lander/Phantom_Engaged_v4.pdf`
exists, whether the working-directory fallback `Phantom_Engaged_v4.pdf`
exists, and what pages each holds.
-/

/-- The assembly loop of `build` (`insert_callouts.py` lines 224-233):
`for i in range(len(reader.pages)): writer.add_page(reader.pages[i]);
if i == 3: add a-page; if i == 7: add c-page`.  The first argument of the
recursion is the loop index `i`. -/
def assembleAux (a c : ℕ) : ℕ → List ℕ → List ℕ
  | _, [] => []
  | i, pg :: rest =>
      pg :: ((if i = 3 then [a] else []) ++ (if i = 7 then [c] else [])
        ++ assembleAux a c (i + 1) rest)

/-- The page sequence the writer holds after the loop, starting at index 0. -/
def assemble (orig : List ℕ) (a c : ℕ) : List ℕ := assembleAux a c 0 orig

/-- File-system state as seen by `insert_callouts.py` at startup. -/
structure FS where
  primaryExists : Bool
  cwdExists : Bool
  primaryPages : List ℕ
  cwdPages : List ℕ

/-- The configured source path (`insert_callouts.py` lines 25-26):
`os.path.join(os.path.dirname(os.path.abspath(__file__)),
"mnt/PhantomEngaged_Lander/Phantom_Engaged_v4.pdf")`. -/
def scriptRelOrig (d : String) : String :=
  d ++ "/mnt/PhantomEngaged_Lander/Phantom_Engaged_v4.pdf"

/-- The configured output path (`insert_callouts.py` lines 27-28). -/
def scriptRelOut (d : String) : String :=
  d ++ "/mnt/PhantomEngaged_Lander/Phantom_Engaged_v5.pdf"

/-- `ORIG_PDF` after the startup fallback (`insert_callouts.py` lines 33-35):
if the script-relative file is missing, fall back to the working-directory
name. -/
def resolvedOrig (d : String) (fs : FS) : String :=
  if fs.primaryExists then scriptRelOrig d else "Phantom_Engaged_v4.pdf"

/-- `OUTPUT` after the startup fallback (`insert_callouts.py` lines 33-35). -/
def resolvedOut (d : String) (fs : FS) : String :=
  if fs.primaryExists then scriptRelOut d else "Phantom_Engaged_v5.pdf"

/-- `PdfReader(ORIG_PDF)` (`insert_callouts.py` line 203): reads the resolved
source; `none` models the `FileNotFoundError` the reader raises when the
resolved path does not exist. -/
def readSource (fs : FS) : Option (List ℕ) :=
  if fs.primaryExists then some fs.primaryPages
  else if fs.cwdExists then some fs.cwdPages
  else none

/-- `build()` (`insert_callouts.py` lines 202-240): read the source (raising
before anything else if it is absent), run the assembly loop, then open the
output path and write.  An `Except.error` models the uncaught exception: the
run aborts and the `open(OUTPUT, "wb")` on line 235 is never reached, so no
output file is created.  On success the result carries the output path and
the page sequence written there. -/
def insertCalloutsBuild (d : String) (fs : FS) (a c : ℕ) :
    Except String (String × List ℕ) :=
  match readSource fs with
  | none => Except.error "FileNotFoundError: Phantom_Engaged_v4.pdf"
  | some pages => Except.ok (resolvedOut d fs, assemble pages a c)

lemma assembleAux_past (a c : ℕ) :
    ∀ (l : List ℕ) (i : ℕ), 8 ≤ i → assembleAux a c i l = l := by
  intro l
  induction l with
  | nil => intro i _; rfl
  | cons p rest ih =>
      intro i h
      have h3 : i ≠ 3 := by omega
      have h7 : i ≠ 7 := by omega
      simp [assembleAux, h3, h7]
      exact ih (i + 1) (by omega)

lemma assemble_long (a c p0 p1 p2 p3 p4 p5 p6 p7 : ℕ) (rest : List ℕ) :
    assemble (p0 :: p1 :: p2 :: p3 :: p4 :: p5 :: p6 :: p7 :: rest) a c
      = p0 :: p1 :: p2 :: p3 :: a :: p4 :: p5 :: p6 :: p7 :: c :: rest := by
  simp [assemble, assembleAux]
  exact assembleAux_past a c rest 8 (by omega)

/-- Claim C3 is false as stated: run on a 4-page source (anchors 3 and 7,
so k = 2), the output has 5 pages, not 4 + 2 = 6 — the insertion anchored
after original index 7 is silently dropped because the loop index never
reaches 7. -/
theorem claim3_counterexample :
    (assemble [0, 1, 2, 3] 100 101).length ≠ 4 + 2 := by
  decide

/-- Claim C3 amended: provided the source has at least 8 pages (every anchor
is a valid original index), the output is exactly the original pages in
order with the Approach-A page spliced in immediately after original index 3
and the Approach-C page immediately after original index 7, hence exactly
N + 2 pages, with every original page handle unchanged. -/
theorem claim3_amended :
    ∀ (orig : List ℕ) (a c : ℕ), 8 ≤ orig.length →
      assemble orig a c
          = orig.take 4 ++ [a] ++ (orig.drop 4).take 4 ++ [c] ++ orig.drop 8
      ∧ (assemble orig a c).length = orig.length + 2 := by
  intro orig a c h
  match orig, h with
  | p0 :: p1 :: p2 :: p3 :: p4 :: p5 :: p6 :: p7 :: rest, _ =>
      rw [assemble_long]
      constructor
      · simp
      · simp

/-- Witness for the amended C3 at a concrete 8-page source. -/
theorem claim3_witness :
    8 ≤ ([0, 1, 2, 3, 4, 5, 6, 7] : List ℕ).length
    ∧ (assemble [0, 1, 2, 3, 4, 5, 6, 7] 100 101
          = ([0, 1, 2, 3, 4, 5, 6, 7] : List ℕ).take 4 ++ [100]
            ++ (([0, 1, 2, 3, 4, 5, 6, 7] : List ℕ).drop 4).take 4 ++ [101]
            ++ ([0, 1, 2, 3, 4, 5, 6, 7] : List ℕ).drop 8
        ∧ (assemble [0, 1, 2, 3, 4, 5, 6, 7] 100 101).length
            = ([0, 1, 2, 3, 4, 5, 6, 7] : List ℕ).length + 2) :=
  ⟨by decide, claim3_amended [0, 1, 2, 3, 4, 5, 6, 7] 100 101 (by decide)⟩

lemma assemble_short (a c : ℕ) :
    ∀ l : List ℕ, l.length < 8 →
      assemble l a c = l.take 4 ++ (if 4 ≤ l.length then [a] else []) ++ l.drop 4 := by
  intro l h
  match l with
  | [] => rfl
  | [p0] => rfl
  | [p0, p1] => rfl
  | [p0, p1, p2] => rfl
  | [p0, p1, p2, p3] => simp [assemble, assembleAux]
  | [p0, p1, p2, p3, p4] => simp [assemble, assembleAux]
  | [p0, p1, p2, p3, p4, p5] => simp [assemble, assembleAux]
  | [p0, p1, p2, p3, p4, p5, p6] => simp [assemble, assembleAux]
  | p0 :: p1 :: p2 :: p3 :: p4 :: p5 :: p6 :: p7 :: rest =>
      exfalso
      simp at h
      omega

/-- Claim C4 is false as stated: on a 4-page source (fewer than
max(anchor) + 1 = 8 pages) the merge does not abort — `build` runs to
completion and writes a 5-page output in which the anchor-7 insertion is
silently dropped.  No pre-flight anchor check exists in the code. -/
theorem claim4_counterexample :
    insertCalloutsBuild "/app" ⟨true, true, [0, 1, 2, 3], []⟩ 100 101
      = Except.ok ("/app/mnt/PhantomEngaged_Lander/Phantom_Engaged_v5.pdf",
          [0, 1, 2, 3, 100]) := by
  rfl

/-- Claim C4 amended: if the (readable, script-relative) source has fewer
than 8 pages, the merge does not abort and reports no error: it completes
and writes an output in which every insertion whose anchor is beyond the
last original index is silently omitted — the anchor-7 page is dropped
whenever N < 8, and the anchor-3 page is also dropped whenever N < 4. -/
theorem claim4_amended :
    ∀ (d : String) (fs : FS) (a c : ℕ),
      fs.primaryExists = true → fs.primaryPages.length < 8 →
      insertCalloutsBuild d fs a c
        = Except.ok (scriptRelOut d,
            fs.primaryPages.take 4
              ++ (if 4 ≤ fs.primaryPages.length then [a] else [])
              ++ fs.primaryPages.drop 4) := by
  intro d fs a c hp hlen
  simp [insertCalloutsBuild, readSource, resolvedOut, hp,
    assemble_short a c fs.primaryPages hlen]

/-- Witness for the amended C4 at a concrete 5-page source. -/
theorem claim4_witness :
    (FS.mk true true [0, 1, 2, 3, 4] []).primaryExists = true
    ∧ (FS.mk true true [0, 1, 2, 3, 4] []).primaryPages.length < 8
    ∧ insertCalloutsBuild "/app" (FS.mk true true [0, 1, 2, 3, 4] []) 100 101
        = Except.ok (scriptRelOut "/app",
            (FS.mk true true [0, 1, 2, 3, 4] []).primaryPages.take 4
              ++ (if 4 ≤ (FS.mk true true [0, 1, 2, 3, 4] []).primaryPages.length
                  then [100] else [])
              ++ (FS.mk true true [0, 1, 2, 3, 4] []).primaryPages.drop 4) :=
  ⟨by decide, by decide,
    claim4_amended "/app" (FS.mk true true [0, 1, 2, 3, 4] []) 100 101 rfl (by decide)⟩

/-- Claim C6 confirmed: when the source document is absent (neither the
script-relative location nor the working-directory fallback exists),
`PdfReader(ORIG_PDF)` on line 203 raises before `open(OUTPUT, "wb")` on line
235 is ever reached: the run aborts and no output file is created. -/
theorem claim6_theorem :
    ∀ (d : String) (fs : FS) (a c : ℕ),
      fs.primaryExists = false → fs.cwdExists = false →
      insertCalloutsBuild d fs a c
        = Except.error "FileNotFoundError: Phantom_Engaged_v4.pdf" := by
  intro d fs a c hp hc
  simp [insertCalloutsBuild, readSource, hp, hc]

/-- Witness for C6: a file system with no source at either location. -/
theorem claim6_witness :
    (FS.mk false false [] []).primaryExists = false
    ∧ (FS.mk false false [] []).cwdExists = false
    ∧ insertCalloutsBuild "/app" (FS.mk false false [] []) 100 101
        = Except.error "FileNotFoundError: Phantom_Engaged_v4.pdf" :=
  ⟨rfl, rfl, claim6_theorem "/app" (FS.mk false false [] []) 100 101 rfl rfl⟩

/-- Claim C10 confirmed: when the configured script-relative source is
absent, the tool silently falls back to `Phantom_Engaged_v4.pdf` /
`Phantom_Engaged_v5.pdf` in the working directory and — if that fallback
file exists — runs to completion there; the existence check on lines 33-35
only ever selects between the two candidate paths and never itself aborts
the run. -/
theorem claim10_theorem :
    ∀ (d : String) (fs : FS) (a c : ℕ),
      fs.primaryExists = false → fs.cwdExists = true →
      resolvedOrig d fs = "Phantom_Engaged_v4.pdf"
      ∧ resolvedOut d fs = "Phantom_Engaged_v5.pdf"
      ∧ insertCalloutsBuild d fs a c
          = Except.ok ("Phantom_Engaged_v5.pdf", assemble fs.cwdPages a c)
      ∧ (∀ fs2 : FS, resolvedOrig d fs2 = scriptRelOrig d
          ∨ resolvedOrig d fs2 = "Phantom_Engaged_v4.pdf") := by
  intro d fs a c hp hc
  refine ⟨?_, ?_, ?_, ?_⟩
  · simp [resolvedOrig, hp]
  · simp [resolvedOut, hp]
  · simp [insertCalloutsBuild, readSource, resolvedOut, hp, hc]
  · intro fs2
    by_cases h2 : fs2.primaryExists
    · exact Or.inl (by simp [resolvedOrig, h2])
    · exact Or.inr (by simp [resolvedOrig, h2])

/-- Witness for C10: primary source absent, working-directory file present. -/
theorem claim10_witness :
    (FS.mk false true [] [0, 1]).primaryExists = false
    ∧ (FS.mk false true [] [0, 1]).cwdExists = true
    ∧ (resolvedOrig "/app" (FS.mk false true [] [0, 1]) = "Phantom_Engaged_v4.pdf"
       ∧ resolvedOut "/app" (FS.mk false true [] [0, 1]) = "Phantom_Engaged_v5.pdf"
       ∧ insertCalloutsBuild "/app" (FS.mk false true [] [0, 1]) 100 101
           = Except.ok ("Phantom_Engaged_v5.pdf",
               assemble (FS.mk false true [] [0, 1]).cwdPages 100 101)
       ∧ (∀ fs2 : FS, resolvedOrig "/app" fs2 = scriptRelOrig "/app"
           ∨ resolvedOrig "/app" fs2 = "Phantom_Engaged_v4.pdf")) :=
  ⟨rfl, rfl, claim10_theorem "/app" (FS.mk false true [] [0, 1]) 100 101 rfl rfl⟩

/-!
Content-page chrome routines.  ReportLab hands each `onPage` callback the
document with its 1-based internal page counter `doc.page`; the counter is
embedded as `ℤ` (a Python int).  The routines below are the footer lines
containing the visible page number.
-/

/-- `ContentPage.draw` footer text (`generate_phantom_engaged.py` lines
330-333): `f"Phantom Engaged  •  Position Paper v{VERSION}  •  {DATE}
Page {doc.page - 1}"` with `VERSION = "4.0"`, `DATE = "February 2026"`. -/
def phantomContentFooter (page : ℤ) : String :=
  "Phantom Engaged  •  Position Paper v4.0  •  February 2026   Page "
    ++ toString (page - 1)

/-- `draw_content_page` footer text (`generate_whitepaper_full.py` line
321): `f"Page {doc.page} | Expert.Email"` — no offset is applied. -/
def whitepaperFullFooter (page : ℤ) : String :=
  "Page " ++ toString page ++ " | Expert.Email"

/-- `draw_content_page` footer text (`generate_whitepaper_proof.py`, same
format as the full whitepaper generator): `f"Page {doc.page} |
Expert.Email"`. -/
def whitepaperProofFooter (page : ℤ) : String :=
  "Page " ++ toString page ++ " | Expert.Email"

/-- Claim C5 is false as stated: it asserts the offset rule for every
generator's Content chrome routine, but on the first physical content page
(internal counter 2) `generate_whitepaper_full.py` displays page number 2,
not 1. -/
theorem claim5_counterexample :
    whitepaperFullFooter 2 = "Page 2 | Expert.Email"
    ∧ whitepaperFullFooter 2 ≠ "Page 1 | Expert.Email" := by
  constructor
  · rfl
  · decide

/-- Claim C5 amended: only `generate_phantom_engaged.py` applies the
`displayed = internal − 1` rule (its first content page, internal counter 2,
displays page 1); the Content chrome routines of
`generate_whitepaper_full.py` and `generate_whitepaper_proof.py` display the
internal counter itself, so their first content page displays page 2. -/
theorem claim5_amended :
    ∀ n : ℤ, 2 ≤ n →
      (phantomContentFooter n
          = "Phantom Engaged  •  Position Paper v4.0  •  February 2026   Page "
            ++ toString (n - 1)
        ∧ whitepaperFullFooter n = "Page " ++ toString n ++ " | Expert.Email"
        ∧ whitepaperProofFooter n = "Page " ++ toString n ++ " | Expert.Email")
      ∧ phantomContentFooter 2
          = "Phantom Engaged  •  Position Paper v4.0  •  February 2026   Page 1"
      ∧ whitepaperFullFooter 2 = "Page 2 | Expert.Email" := by
  intro n _
  exact ⟨⟨rfl, rfl, rfl⟩, rfl, rfl⟩

/-- Witness for the amended C5 at the first physical content page. -/
theorem claim5_witness :
    (2 : ℤ) ≤ 2
    ∧ ((phantomContentFooter 2
          = "Phantom Engaged  •  Position Paper v4.0  •  February 2026   Page "
            ++ toString ((2 : ℤ) - 1)
        ∧ whitepaperFullFooter 2 = "Page " ++ toString (2 : ℤ) ++ " | Expert.Email"
        ∧ whitepaperProofFooter 2 = "Page " ++ toString (2 : ℤ) ++ " | Expert.Email")
      ∧ phantomContentFooter 2
          = "Phantom Engaged  •  Position Paper v4.0  •  February 2026   Page 1"
      ∧ whitepaperFullFooter 2 = "Page 2 | Expert.Email") :=
  ⟨by norm_num, claim5_amended 2 (by norm_num)⟩

/-!
The page-template dispatcher of `generate_phantom_engaged.py` (lines
879-898).  Two templates are registered, `Cover` first — ReportLab renders
page 1 with the first registered template.  The story stream is embedded
structurally: ordinary flowables, explicit `PageBreak()` markers and
`NextPageTemplate(...)` markers.  A page can also end by frame overflow
while placing an ordinary flowable; the event translation below therefore
lets every ordinary flowable contribute an arbitrary number of page-end
events, given by an oracle list of overflow counts.
-/

inductive TemplateId where
  | Cover
  | Content
deriving DecidableEq

inductive StoryItem where
  | flow
  | pageBreak
  | nextTemplate (t : TemplateId)
deriving DecidableEq

/-- `final_story` (`generate_phantom_engaged.py` lines 894-896): the cover
placeholder `Spacer(1, H)`, then the single `NextPageTemplate('Content')`,
then `PageBreak()` (line 377, the head of `story[1:]`), then the document
body — `m` ordinary flowables; the body contains no further
`NextPageTemplate` and no further explicit `PageBreak`. -/
def phantomFinalStory (m : ℕ) : List StoryItem :=
  StoryItem.flow :: StoryItem.nextTemplate TemplateId.Content :: StoryItem.pageBreak
    :: List.replicate m StoryItem.flow

/-- Router state: the template of the page being rendered, and the pending
template set by `NextPageTemplate` (ReportLab's `_nextPageTemplateIndex`). -/
structure Router where
  current : TemplateId
  pending : Option TemplateId
deriving DecidableEq

/-- `handle_pageEnd`: when a pending template is set, the next page uses it
and the pending marker is consumed. -/
def Router.onPageEnd : Router → Router
  | ⟨cur, none⟩ => ⟨cur, none⟩
  | ⟨_, some t⟩ => ⟨t, none⟩

/-- Events the router observes: a `NextPageTemplate` marker, or the end of a
page (from an explicit `PageBreak` or from frame overflow). -/
inductive Ev where
  | marker (t : TemplateId)
  | pageEnd
deriving DecidableEq

/-- Translate the story into router events.  The oracle `o` lists, for each
ordinary flowable in order, how many frame-overflow page ends it triggers
(an exhausted oracle means no further overflow). -/
def eventsOf : List StoryItem → List ℕ → List Ev
  | [], _ => []
  | StoryItem.nextTemplate t :: s, o => Ev.marker t :: eventsOf s o
  | StoryItem.pageBreak :: s, o => Ev.pageEnd :: eventsOf s o
  | StoryItem.flow :: s, o =>
      match o with
      | [] => eventsOf s []
      | k :: o2 => List.replicate k Ev.pageEnd ++ eventsOf s o2

/-- Run the router over the events, returning the template used for each
physical page in order (the final page is closed by the end of the build). -/
def runTemplates : Router → List Ev → List TemplateId
  | r, [] => [r.current]
  | r, Ev.marker t :: es => runTemplates ⟨r.current, some t⟩ es
  | r, Ev.pageEnd :: es => r.current :: runTemplates r.onPageEnd es

lemma eventsOf_flows :
    ∀ (m : ℕ) (o : List ℕ) (e : Ev),
      e ∈ eventsOf (List.replicate m StoryItem.flow) o → e = Ev.pageEnd := by
  intro m
  induction m with
  | zero => intro o e he; simp [eventsOf] at he
  | succ m ih =>
      intro o e he
      rw [List.replicate_succ] at he
      cases o with
      | nil =>
          simp only [eventsOf] at he
          exact ih [] e he
      | cons k o2 =>
          simp only [eventsOf, List.mem_append] at he
          rcases he with h1 | h2
          · exact List.eq_of_mem_replicate h1
          · exact ih o2 e h2

lemma runTemplates_allContent :
    ∀ es : List Ev, (∀ e ∈ es, e = Ev.pageEnd) →
      runTemplates ⟨TemplateId.Content, none⟩ es
        = List.replicate (es.length + 1) TemplateId.Content := by
  intro es
  induction es with
  | nil => intro _; simp [runTemplates]
  | cons e es ih =>
      intro h
      have he : e = Ev.pageEnd := h e (by simp)
      subst he
      have hr : Router.onPageEnd ⟨TemplateId.Content, none⟩
          = ⟨TemplateId.Content, none⟩ := rfl
      simp only [runTemplates, hr, ih fun x hx => h x (by simp [hx])]
      simp [List.replicate_succ]

/-- Claim C7 confirmed: for the phantom generator's flowable stream — with
any document body length `m` and any frame-overflow behaviour `o` of the
body (the cover placeholder is a single spacer of exactly the full-bleed
cover frame height, so it triggers no overflow, the leading `0`) — the
dispatcher renders page 1 with `Cover` and every later physical page with
`Content`, and the stream contains exactly one template-switch marker,
located immediately after the cover placeholder. -/
theorem claim7_theorem :
    ∀ (m : ℕ) (o : List ℕ),
      (runTemplates ⟨TemplateId.Cover, none⟩
          (eventsOf (phantomFinalStory m) (0 :: o))).head? = some TemplateId.Cover
      ∧ (∀ t ∈ (runTemplates ⟨TemplateId.Cover, none⟩
          (eventsOf (phantomFinalStory m) (0 :: o))).tail, t = TemplateId.Content)
      ∧ ((phantomFinalStory m).countP fun item =>
            match item with
            | StoryItem.nextTemplate _ => true
            | _ => false) = 1
      ∧ (phantomFinalStory m)[1]? = some (StoryItem.nextTemplate TemplateId.Content) := by
  intro m o
  have he : eventsOf (phantomFinalStory m) (0 :: o)
      = Ev.marker TemplateId.Content :: Ev.pageEnd
        :: eventsOf (List.replicate m StoryItem.flow) o := by
    simp [phantomFinalStory, eventsOf]
  have hrun : runTemplates ⟨TemplateId.Cover, none⟩
      (eventsOf (phantomFinalStory m) (0 :: o))
      = TemplateId.Cover
        :: List.replicate ((eventsOf (List.replicate m StoryItem.flow) o).length + 1)
             TemplateId.Content := by
    rw [he]
    have h1 : runTemplates ⟨TemplateId.Cover, none⟩
        (Ev.marker TemplateId.Content :: Ev.pageEnd
          :: eventsOf (List.replicate m StoryItem.flow) o)
        = TemplateId.Cover
          :: runTemplates ⟨TemplateId.Content, none⟩
               (eventsOf (List.replicate m StoryItem.flow) o) := rfl
    rw [h1, runTemplates_allContent _ (eventsOf_flows m o)]
  refine ⟨?_, ?_, ?_, ?_⟩
  · rw [hrun]; rfl
  · rw [hrun]
    intro t ht
    simp only [List.tail_cons] at ht
    exact List.eq_of_mem_replicate ht
  · have hz : (List.replicate m StoryItem.flow).countP (fun item =>
        match item with
        | StoryItem.nextTemplate _ => true
        | _ => false) = 0 := by
      refine List.countP_eq_zero.mpr ?_
      intro a ha
      rw [List.eq_of_mem_replicate ha]
      simp
    simp [phantomFinalStory, List.countP_cons, hz]
  · rfl

/-!
Tracking-URL embedding (`generate_phantom_engaged.py`).  Both call sites are
Python f-strings: literal markup around the spliced `TOOL_URL`, with no
escaping, quoting, or syntax validation.  `LINK_COLOR.hexval()` is the
constant `"0x3b9b8f"`.  Below, each site is the exact literal text with the
URL spliced between head and tail, and `hrefTarget` is an independent
extractor that reads back the hyperlink target of the first `<a href="...">`
region of a markup string.
-/

/-- The double-quote character, `"`. -/
def quoteChar : Char := Char.ofNat 34

def charsStartWith : List Char → List Char → Bool
  | [], _ => true
  | _ :: _, [] => false
  | m :: ms, c :: cs => m == c && charsStartWith ms cs

/-- Suffix following the first occurrence of `m`, if any. -/
def afterFirst (m : List Char) : List Char → Option (List Char)
  | [] => none
  | c :: cs =>
      if charsStartWith m (c :: cs) then some ((c :: cs).drop m.length)
      else afterFirst m cs

def hrefMarker : List Char := "href=\"".data

/-- Read back the hyperlink target: the text between the first `href="` and
the next `"`. -/
def hrefTarget (s : String) : Option String :=
  match afterFirst hrefMarker s.data with
  | none => none
  | some r => some (String.mk (r.takeWhile fun c => c != quoteChar))

/-- Literal markup before the URL in the Approach-A callout
(`generate_phantom_engaged.py` lines 592-593). -/
def approachAHead : String :=
  "<b>Apply this framework to your list.</b>  We built a <a href=\""

/-- Literal markup after the URL in the Approach-A callout
(`generate_phantom_engaged.py` lines 593-596). -/
def approachATail : String :=
  "\" color=\"0x3b9b8f\">free classification tool</a> to help you map your subscribers into the A/B/C framework described above. There is no opt-in and no paywall — just a practical starting point for teams ready to move from open-based assumptions to intent-based classification."

/-- The Approach-A callout paragraph with the tracking URL spliced in. -/
def approachACalloutText (u : String) : String :=
  approachAHead ++ u ++ approachATail

/-- Literal markup before the URL in the Approach-C paragraph
(`generate_phantom_engaged.py` lines 825-827). -/
def approachCHead : String :=
  "There is no opt-in, no paywall, and no sales pitch. It exists to help working marketers put classification discipline into practice.  <a href=\""

/-- Literal markup after the URL in the Approach-C paragraph
(`generate_phantom_engaged.py` line 827). -/
def approachCTail : String :=
  "\" color=\"0x3b9b8f\">Access the free tool here.</a>"

/-- The Approach-C "Put This Into Practice" paragraph with the URL spliced
in. -/
def approachCPracticeText (u : String) : String :=
  approachCHead ++ u ++ approachCTail

lemma takeWhile_fills (p : Char → Bool) :
    ∀ (xs : List Char) (c : Char) (zs : List Char),
      (∀ x ∈ xs, p x = true) → p c = false →
      (xs ++ c :: zs).takeWhile p = xs := by
  intro xs
  induction xs with
  | nil => intro c zs _ hc; simp [List.takeWhile_cons, hc]
  | cons x xs ih =>
      intro c zs hall hc
      have hx : p x = true := hall x (by simp)
      simp [List.takeWhile_cons, hx,
        ih c zs (fun y hy => hall y (by simp [hy])) hc]

/-- Claim C8 confirmed: for every URL string containing no double quote
(every RFC-3986 reserved character such as `?`, `=`, `&` is allowed), both
call sites embed the URL character-for-character: the hyperlink target read
back from the built markup of the Approach-A callout and of the Approach-C
"Access the free tool here" paragraph is exactly the input URL.  No
validation or transformation is applied, and since both texts are pure
functions of the URL, two builds given the same URL produce byte-identical
embedded strings. -/
theorem claim8_theorem :
    ∀ u : String, (∀ c ∈ u.data, c ≠ quoteChar) →
      hrefTarget (approachACalloutText u) = some u
      ∧ hrefTarget (approachCPracticeText u) = some u := by
  intro u h
  have hp : ∀ x ∈ u.data, (x != quoteChar) = true := by
    intro x hx
    simpa using h x hx
  have hq : (quoteChar != quoteChar) = false := by simp
  constructor
  · have e1 : afterFirst hrefMarker (approachACalloutText u).data
        = some (u.data ++ approachATail.data) := rfl
    have e2 : approachATail.data = quoteChar :: approachATail.data.tail := rfl
    simp only [hrefTarget, e1]
    rw [e2, takeWhile_fills _ u.data quoteChar approachATail.data.tail hp hq]
  · have e1 : afterFirst hrefMarker (approachCPracticeText u).data
        = some (u.data ++ approachCTail.data) := rfl
    have e2 : approachCTail.data = quoteChar :: approachCTail.data.tail := rfl
    simp only [hrefTarget, e1]
    rw [e2, takeWhile_fills _ u.data quoteChar approachCTail.data.tail hp hq]

/-- Witness for C8 at the spec's example URL with reserved characters. -/
theorem claim8_witness :
    (∀ c ∈ ("https://a.example/x?y=1&z=2" : String).data, c ≠ quoteChar)
    ∧ (hrefTarget (approachACalloutText "https://a.example/x?y=1&z=2")
          = some "https://a.example/x?y=1&z=2"
      ∧ hrefTarget (approachCPracticeText "https://a.example/x?y=1&z=2")
          = some "https://a.example/x?y=1&z=2") :=
  ⟨by decide, claim8_theorem "https://a.example/x?y=1&z=2" (by decide)⟩

/-!
The overlap diagram (`generate_phantom_engaged.py`, `OverlapDiagram.draw`,
lines 185-251).  The geometry is a pure function of the flowable width
(`self.width = avail_width`); the Python float constants `0.82` and `0.72`
are embedded as exact rationals.
-/

/-- Geometry computed by `OverlapDiagram.draw` (lines 190-197 and the label
placements on lines 220-230). -/
structure OverlapGeom where
  boxW : ℚ
  boxH : ℚ
  boxX : ℚ
  boxY : ℚ
  dashX : ℚ
  engagedLabelX : ℚ
  unengagedLabelX : ℚ
  titleY : ℚ

/-- `cx = W/2; box_w = W*0.82; box_h = 38; box_x = cx - box_w/2;
box_y = 28; dash_x = box_x + box_w*0.72`; the ENGAGED label sits at
`box_x + 20`, the UNENGAGED label (end-anchored) at `box_x + box_w - 20`,
the PHANTOM ENGAGED title at `box_y + box_h + 18`. -/
def overlapGeom (w : ℚ) : OverlapGeom :=
  let cx := w / 2
  let box_w := w * (82 / 100)
  let box_h : ℚ := 38
  let box_x := cx - box_w / 2
  let box_y : ℚ := 28
  let dash_x := box_x + box_w * (72 / 100)
  { boxW := box_w
    boxH := box_h
    boxX := box_x
    boxY := box_y
    dashX := dash_x
    engagedLabelX := box_x + 20
    unengagedLabelX := box_x + box_w - 20
    titleY := box_y + box_h + 18 }

/-- Claim C9 is false as stated: not every internal offset is a fraction of
the available width.  The ENGAGED label offset is `box_x + 20` — a fixed
20-unit inset — so it does not scale proportionally: at widths 400 and 800
the label sits at 56 and 92, and 56/400 ≠ 92/800. -/
theorem claim9_counterexample :
    (overlapGeom 400).engagedLabelX * 800 ≠ (overlapGeom 800).engagedLabelX * 400 := by
  norm_num [overlapGeom]

/-- Claim C9 amended: the main box has width `0.82×w` and is horizontally
centered (left edge `w/2 − 0.41×w`), and the dashed divider sits at `0.72`
of the box width from its left edge — these horizontal placements scale
with `w`; but the vertical geometry (`box_y = 28`, `box_h = 38`, title at
`box_y + box_h + 18`) and the 20-unit label insets are fixed constants, not
fractions of `w`.  The geometry is a pure function of `w` — the composer
holds no internal mutable state, so repeated invocations with the same width
produce the same geometry. -/
theorem claim9_amended :
    ∀ w : ℚ,
      (overlapGeom w).boxW = (82 / 100) * w
      ∧ (overlapGeom w).boxX = w / 2 - (41 / 100) * w
      ∧ (overlapGeom w).dashX = (overlapGeom w).boxX + (72 / 100) * (overlapGeom w).boxW
      ∧ (overlapGeom w).boxH = 38
      ∧ (overlapGeom w).boxY = 28
      ∧ (overlapGeom w).engagedLabelX = (overlapGeom w).boxX + 20
      ∧ (overlapGeom w).unengagedLabelX = (overlapGeom w).boxX + (overlapGeom w).boxW - 20
      ∧ (overlapGeom w).titleY = (overlapGeom w).boxY + (overlapGeom w).boxH + 18 := by
  intro w
  refine ⟨by simp [overlapGeom]; ring, by simp [overlapGeom]; ring,
    by simp [overlapGeom]; ring, by simp [overlapGeom],
    by simp [overlapGeom], by simp [overlapGeom],
    by simp [overlapGeom], by simp [overlapGeom]⟩
